import Mathlib

/-!
Verification of the tax-filing backend (Express + Sequelize).

This file shallowly embeds the data model and the route handlers of the
repository and proves the behavioural properties stated about them: the
1098 derivation formula, the dependent registry, login, token
verification, file-upload filtering, the partial-update merge, and the
password-exposure invariant.

Modelling conventions:
- JavaScript numbers are modelled as exact rationals.
- JavaScript strings are Lean strings; character-level operations work on
  the underlying character list.
- Timestamps are abstract naturals supplied by the caller.
- Database rows are Lean structures; a table is a list of rows; each
  handler is a pure function from its inputs and the current store to a
  result and the next store.
- Nullable columns and optionally-present JSON fields are `Option`s.
-/

/-- Structured address object, as stored in the JSONB `address` column and
in the W-2 / 1098 payloads. -/
structure Address where
  street : String
  city : String
  state : String
  zip : String
deriving DecidableEq, Repr

/-- JavaScript `a || b` for a possibly-missing string value: falls back to
`b` when `a` is null/undefined or the empty string (both falsy). -/
def jsOrStr (a : Option String) (b : String) : String :=
  match a with
  | some s => if s = "" then b else s
  | none => b

/-- W-2 extraction payload, the shape fabricated by POST /extract-w2 and
stored under `user.income.w2Data`. -/
structure W2Data where
  employeeName : Option String
  employeeSSN : Option String
  employeeAddress : Option Address
  employerName : String
  employerEIN : String
  employerAddress : Address
  box1_wages : ℚ
  box2_federalTax : ℚ
  box3_socialSecurityWages : ℚ
  box4_socialSecurityTax : ℚ
  box5_medicareWages : ℚ
  box6_medicareTax : ℚ
  box7_socialSecurityTips : ℚ
  box8_allocatedTips : ℚ
  box9_verificationCode : String
  box10_dependentCareBenefits : ℚ
  box11_nonqualifiedPlans : ℚ
  box12_codes : List String
  box13_statutoryEmployee : Bool
  box13_retirementPlan : Bool
  box13_thirdPartySickPay : Bool
  box14_other : List String
  taxableIncome : ℚ
  totalTaxWithheld : ℚ
  netPay : ℚ
  extractionDate : Nat
  extractionMethod : String
  confidence : ℚ
deriving DecidableEq, Repr

/-- Calculation-basis note attached to a generated 1098 record. -/
structure CalculationBasis where
  basedOnW2Income : ℚ
  interestRate : ℚ
  estimationMethod : String
deriving DecidableEq, Repr

/-- Form 1098 payload, the shape produced by POST /generate-1098 and
stored under `user.deductions.form1098`. -/
structure Form1098 where
  borrowerName : String
  borrowerSSN : String
  borrowerAddress : Address
  lenderName : String
  lenderTIN : String
  lenderAddress : Address
  mortgageInterestReceived : ℚ
  pointsPaid : ℚ
  refundOfOverpaidInterest : ℚ
  mortgageInsurancePremiums : ℚ
  outstandingMortgagePrincipal : ℚ
  propertyAddress : Address
  formYear : Nat
  generatedDate : Nat
  accountNumber : String
  calculationBasis : CalculationBasis
deriving DecidableEq, Repr

/-- Contents of the JSONB `income` column as this codebase uses it. -/
structure Income where
  w2Data : Option W2Data
  lastW2Extraction : Option Nat
deriving DecidableEq, Repr

/-- Contents of the JSONB `deductions` column as this codebase uses it. -/
structure Deductions where
  form1098 : Option Form1098
  last1098Generation : Option Nat
deriving DecidableEq, Repr

/-- A row of the `Users` table (models/User.js). `firstName`/`lastName`
are stored as strings (signup writes `firstName || ''`). -/
structure UserRow where
  id : String
  email : String
  password : String
  firstName : String
  lastName : String
  filingStatus : Option String
  taxClassification : Option String
  businessName : Option String
  ssn : Option String
  ein : Option String
  address : Option Address
  income : Income
  deductions : Deductions
  w9Uploaded : Bool
  w9UploadDate : Option Nat
  w9FileName : Option String
  w2Uploaded : Bool
  w2UploadDate : Option Nat
  w2FileName : Option String
  formCompletionStatus : String
  lastLogin : Option Nat
  createdAt : Nat
  updatedAt : Nat
deriving DecidableEq, Repr

/-- Placeholder address used as last fallback by extract-w2 and
generate-1098. -/
def placeholderAddress : Address :=
  { street := "123 Main St", city := "Anytown", state := "CA", zip := "12345" }

/-- Static employer block of the mocked W-2 extraction. -/
def sampleEmployerAddress : Address :=
  { street := "456 Business Ave", city := "Corporate City", state := "CA", zip := "54321" }

/-- Static lender block of the generated 1098. -/
def mortgageLenderAddress : Address :=
  { street := "789 Finance Blvd", city := "Banking City", state := "NY", zip := "10001" }

/-- Mocked W-2 extraction payload built by POST /extract-w2 (the route's
`extractedData` object). The source's `user.firstName + ' ' + user.lastName
|| 'John Doe'` never takes the fallback: `+` binds tighter than `||` and
the concatenation always holds a space, hence is truthy. -/
def mockExtractedW2 (u : UserRow) (now : Nat) : W2Data :=
  { employeeName := some (u.firstName ++ " " ++ u.lastName)
    employeeSSN := some (jsOrStr u.ssn "123-45-6789")
    employeeAddress := some (u.address.getD placeholderAddress)
    employerName := "Sample Employer Inc."
    employerEIN := "12-3456789"
    employerAddress := sampleEmployerAddress
    box1_wages := 65000
    box2_federalTax := 8500
    box3_socialSecurityWages := 65000
    box4_socialSecurityTax := 4030
    box5_medicareWages := 65000
    box6_medicareTax := 942.50
    box7_socialSecurityTips := 0
    box8_allocatedTips := 0
    box9_verificationCode := ""
    box10_dependentCareBenefits := 0
    box11_nonqualifiedPlans := 0
    box12_codes := []
    box13_statutoryEmployee := false
    box13_retirementPlan := true
    box13_thirdPartySickPay := false
    box14_other := []
    taxableIncome := 65000
    totalTaxWithheld := 8500
    netPay := 56500
    extractionDate := now
    extractionMethod := "mocked"
    confidence := 0.95 }

/-- Uppercase of the first eight characters of the user id, as in
`user.id.substring(0, 8).toUpperCase()`. -/
def accountNumberOf (id : String) : String :=
  "MTG-" ++ String.mk ((id.data.take 8).map Char.toUpper)

/-- Pure 1098 generation from a user row and its stored W-2 payload
(POST /generate-1098, the `form1098` object). -/
def generate1098 (u : UserRow) (w2 : W2Data) (year now : Nat) : Form1098 :=
  let estimatedMortgageInterest := min (w2.box1_wages * 0.04) 10000
  { borrowerName := jsOrStr w2.employeeName (u.firstName ++ " " ++ u.lastName)
    borrowerSSN := jsOrStr w2.employeeSSN (jsOrStr u.ssn "123-45-6789")
    borrowerAddress := ((w2.employeeAddress).orElse (fun _ => u.address)).getD placeholderAddress
    lenderName := "First National Mortgage Bank"
    lenderTIN := "98-7654321"
    lenderAddress := mortgageLenderAddress
    mortgageInterestReceived := estimatedMortgageInterest
    pointsPaid := 0
    refundOfOverpaidInterest := 0
    mortgageInsurancePremiums := w2.box1_wages * 0.005
    outstandingMortgagePrincipal := w2.box1_wages * 3.5
    propertyAddress := ((w2.employeeAddress).orElse (fun _ => u.address)).getD placeholderAddress
    formYear := year
    generatedDate := now
    accountNumber := accountNumberOf u.id
    calculationBasis :=
      { basedOnW2Income := w2.box1_wages
        interestRate := 0.04
        estimationMethod := "income_based" } }

/-- POST /generate-1098 handler: 404 when no W-2 payload is stored,
otherwise generates the 1098 record and persists it under
`user.deductions` (spread keeps the other deduction keys). -/
def generate1098Route (u : UserRow) (year now : Nat) : Except Nat (Form1098 × UserRow) :=
  match u.income.w2Data with
  | none => .error 404
  | some w2 =>
    let f := generate1098 u w2 year now
    .ok (f, { u with deductions := { u.deductions with form1098 := some f, last1098Generation := some now } })

/-- A sample user row for concrete evaluations. -/
def sampleUser : UserRow :=
  { id := "11111111-2222-3333-4444-555555555555"
    email := "a@x.com"
    password := "hashed-secret"
    firstName := "Ada"
    lastName := "Lovelace"
    filingStatus := some "single"
    taxClassification := none
    businessName := none
    ssn := none
    ein := none
    address := none
    income := { w2Data := none, lastW2Extraction := none }
    deductions := { form1098 := none, last1098Generation := none }
    w9Uploaded := false
    w9UploadDate := none
    w9FileName := none
    w2Uploaded := false
    w2UploadDate := none
    w2FileName := none
    formCompletionStatus := "not_started"
    lastLogin := none
    createdAt := 0
    updatedAt := 0 }

/-- Sample user whose stored income carries the mocked W-2 payload. -/
def sampleUserWithW2 : UserRow :=
  { sampleUser with income := { w2Data := some (mockExtractedW2 sampleUser 0), lastW2Extraction := some 0 } }

/-- C1. For every user whose stored W-2 record has wages w in box 1,
generate1098 produces a 1098 record with
mortgageInterestReceived = min(w × 0.04, 10000),
mortgageInsurancePremiums = w × 0.005 and
outstandingMortgagePrincipal = w × 3.5; for w = 65000 the three boxes are
2600.00, 325.00 and 227500.00. -/
theorem generate1098_box_formulas (u : UserRow) (w2 : W2Data) (year now : Nat)
    (h : u.income.w2Data = some w2) :
    ∃ f u', generate1098Route u year now = .ok (f, u') ∧
      u'.deductions.form1098 = some f ∧
      f.mortgageInterestReceived = min (w2.box1_wages * 0.04) 10000 ∧
      f.mortgageInsurancePremiums = w2.box1_wages * 0.005 ∧
      f.outstandingMortgagePrincipal = w2.box1_wages * 3.5 ∧
      (w2.box1_wages = 65000 →
        f.mortgageInterestReceived = 2600 ∧
        f.mortgageInsurancePremiums = 325 ∧
        f.outstandingMortgagePrincipal = 227500) := by
  refine ⟨generate1098 u w2 year now,
    { u with deductions := { u.deductions with
        form1098 := some (generate1098 u w2 year now), last1098Generation := some now } },
    ?_, rfl, rfl, rfl, rfl, ?_⟩
  · unfold generate1098Route
    rw [h]
  · intro hw
    refine ⟨?_, ?_, ?_⟩ <;> simp [generate1098, hw] <;> norm_num

/-- Witness for C1: the sample user carrying the mocked W-2 payload
(wages 65000) gets the concrete box values of the claim. -/
theorem generate1098_box_formulas_witness :
    sampleUserWithW2.income.w2Data = some (mockExtractedW2 sampleUser 0) ∧
    ∃ f u', generate1098Route sampleUserWithW2 2024 1 = .ok (f, u') ∧
      f.mortgageInterestReceived = 2600 ∧
      f.mortgageInsurancePremiums = 325 ∧
      f.outstandingMortgagePrincipal = 227500 := by
  refine ⟨rfl, ?_⟩
  obtain ⟨f, u', h1, _, _, _, _, h6⟩ :=
    generate1098_box_formulas sampleUserWithW2 (mockExtractedW2 sampleUser 0) 2024 1 rfl
  obtain ⟨ha, hb, hc⟩ := h6 rfl
  exact ⟨f, u', h1, ha, hb, hc⟩

/-- Error names thrown by jwt.verify, as the middleware discriminates
them. -/
inductive TokenErr where
  | jsonWebTokenErr
  | tokenExpiredErr
  | otherErr
deriving DecidableEq, Repr

/-- Payload signed into a session token at login: `{userId, email}`. -/
structure TokenPayload where
  userId : String
  email : String
deriving DecidableEq, Repr

/-- Context the middleware attaches to the request on success. -/
structure AuthCtx where
  userId : String
  email : String
  firstName : String
  lastName : String
deriving DecidableEq, Repr

/-- Outcome of the auth middleware: the attached context, or a terminal
status/message response. -/
inductive AuthResult where
  | ok (ctx : AuthCtx)
  | fail (status : Nat) (message : String)
deriving DecidableEq, Repr

/-- Primary-key lookup on the `Users` table. -/
def findByPk (id : String) (store : List UserRow) : Option UserRow :=
  store.find? (fun u => u.id == id)

/-- Token-stripping step of the middleware: the raw header value is used
as-is unless it starts with the string Bearer-and-space, in which case the
first seven characters are sliced off. -/
def actualTokenOf (token : String) : String :=
  if "Bearer ".data.isPrefixOf token.data then String.mk (token.data.drop 7) else token

/-- Auth middleware (middleware/auth.js), parameterised by the external
jwt.verify. A present-but-empty header is falsy in JavaScript and hits the
no-token branch. The middleware returns the store untouched next to its
result: it performs a single read (`findByPk`) and no write. -/
def authMiddleware (verify : String → Except TokenErr TokenPayload)
    (header : Option String) (store : List UserRow) : AuthResult × List UserRow :=
  match header with
  | none => (.fail 401 "No token provided, authorization denied", store)
  | some token =>
    if token = "" then (.fail 401 "No token provided, authorization denied", store)
    else
      let actualToken := actualTokenOf token
      if actualToken = "" then (.fail 401 "Invalid token format", store)
      else
        match verify actualToken with
        | .error .jsonWebTokenErr => (.fail 401 "Invalid token", store)
        | .error .tokenExpiredErr => (.fail 401 "Token expired", store)
        | .error .otherErr => (.fail 500 "Server error in authentication", store)
        | .ok payload =>
          match findByPk payload.userId store with
          | none => (.fail 401 "User not found, token invalid", store)
          | some u => (.ok { userId := payload.userId, email := u.email,
                             firstName := u.firstName, lastName := u.lastName }, store)

/-- C9. Token verification leaves the persistent store unchanged on every
path, success or failure: it only reads the user record and attaches the
context. -/
theorem authMiddleware_store_unchanged (verify : String → Except TokenErr TokenPayload)
    (header : Option String) (store : List UserRow) :
    (authMiddleware verify header store).2 = store := by
  unfold authMiddleware
  cases header with
  | none => rfl
  | some token =>
    dsimp only
    repeat' split
    all_goals rfl

/-- C10. A non-empty token presented without the Bearer prefix is handled
identically to the same token presented with the prefix: the middleware
strips the prefix only when present. -/
theorem authMiddleware_bearer_optional (verify : String → Except TokenErr TokenPayload)
    (store : List UserRow) (t : String) (hne : t ≠ "")
    (hpre : "Bearer ".data.isPrefixOf t.data = false) :
    authMiddleware verify (some t) store = authMiddleware verify (some ("Bearer " ++ t)) store := by
  have hbt : ("Bearer " ++ t) ≠ "" := by
    intro h
    have : ("Bearer " ++ t).data = "".data := by rw [h]
    rw [String.data_append] at this
    simp at this
  have hact1 : actualTokenOf t = t := by
    unfold actualTokenOf
    rw [hpre]
    simp
  have hact2 : actualTokenOf ("Bearer " ++ t) = t := by
    unfold actualTokenOf
    rw [String.data_append]
    have hp : "Bearer ".data.isPrefixOf ("Bearer ".data ++ t.data) = true := by
      simp [List.isPrefixOf_iff_prefix]
    rw [hp]
    show String.mk (List.drop 7 (List.append "Bearer ".data t.data)) = t
    rfl
  unfold authMiddleware
  simp only [hne, hbt, hact1, hact2, if_false, if_neg]

/-- Witness for C10: a concrete verifier, store and token; the bare token
and the Bearer-prefixed token give equal middleware outcomes. -/
theorem authMiddleware_bearer_optional_witness :
    "tok" ≠ "" ∧ "Bearer ".data.isPrefixOf "tok".data = false ∧
    authMiddleware (fun s => if s == "tok" then .ok ⟨sampleUser.id, sampleUser.email⟩ else .error .jsonWebTokenErr)
        (some "tok") [sampleUser] =
      authMiddleware (fun s => if s == "tok" then .ok ⟨sampleUser.id, sampleUser.email⟩ else .error .jsonWebTokenErr)
        (some ("Bearer " ++ "tok")) [sampleUser] := by
  refine ⟨by decide, by decide, ?_⟩
  exact authMiddleware_bearer_optional _ [sampleUser] "tok" (by decide) (by decide)

/-- Response of POST /login: status, message, the issued token when any,
and whether a user subset is attached. -/
structure LoginResult where
  status : Nat
  message : String
  token : Option String
deriving DecidableEq, Repr

/-- Email lookup on the `Users` table (`User.findOne({where: {email}})`). -/
def findByEmail (email : String) (store : List UserRow) : Option UserRow :=
  store.find? (fun u => u.email == email)

/-- POST /login handler (routes/auth.js), parameterised by the external
bcrypt.compare and jwt.sign. Both failure branches answer 400 with the
same generic message; success stamps lastLogin on the matched row and
issues a token over `{userId, email}`. -/
def login (check : String → String → Bool) (sign : String → String → String)
    (now : Nat) (email password : String) (store : List UserRow) :
    LoginResult × List UserRow :=
  match findByEmail email store with
  | none => ({ status := 400, message := "Invalid email or password", token := none }, store)
  | some u =>
    if check password u.password then
      ({ status := 200, message := "Login successful", token := some (sign u.id u.email) },
       store.map (fun w => if w.email == email then { w with lastLogin := some now } else w))
    else
      ({ status := 400, message := "Invalid email or password", token := none }, store)

/-- C5. The two login failure modes, unknown email and wrong password,
produce the identical status and the identical message; on success a token
signed over the user's id/email is issued and lastLogin is stamped on the
stored row. -/
theorem login_enumeration_resistant (check : String → String → Bool)
    (sign : String → String → String) (now : Nat) (store : List UserRow)
    (e1 p1 e2 p2 : String) (u : UserRow)
    (h1 : findByEmail e1 store = none)
    (h2 : findByEmail e2 store = some u)
    (h3 : check p2 u.password = false) :
    ((login check sign now e1 p1 store).1.status = (login check sign now e2 p2 store).1.status ∧
     (login check sign now e1 p1 store).1.message = (login check sign now e2 p2 store).1.message) ∧
    (∀ (e p : String) (v : UserRow), findByEmail e store = some v → check p v.password = true →
      (login check sign now e p store).1.status = 200 ∧
      (login check sign now e p store).1.token = some (sign v.id v.email) ∧
      (login check sign now e p store).2 =
        store.map (fun w => if w.email == e then { w with lastLogin := some now } else w)) := by
  constructor
  · unfold login
    rw [h1, h2]
    simp [h3]
  · intro e p v hv hc
    unfold login
    rw [hv]
    simp [hc]

/-- Witness for C5: a one-user store; the unknown-email failure and the
wrong-password failure agree on status and message, and the correct
password logs in with a token and a stamped lastLogin. -/
theorem login_enumeration_resistant_witness :
    findByEmail "nobody@x.com" [sampleUser] = none ∧
    findByEmail "a@x.com" [sampleUser] = some sampleUser ∧
    (fun p h => p == h) "wrong" sampleUser.password = false ∧
    ((login (fun p h => p == h) (fun i e => i ++ "|" ++ e) 5 "nobody@x.com" "pw" [sampleUser]).1.status =
       (login (fun p h => p == h) (fun i e => i ++ "|" ++ e) 5 "a@x.com" "wrong" [sampleUser]).1.status ∧
     (login (fun p h => p == h) (fun i e => i ++ "|" ++ e) 5 "nobody@x.com" "pw" [sampleUser]).1.message =
       (login (fun p h => p == h) (fun i e => i ++ "|" ++ e) 5 "a@x.com" "wrong" [sampleUser]).1.message) ∧
    (login (fun p h => p == h) (fun i e => i ++ "|" ++ e) 5 "a@x.com" "hashed-secret" [sampleUser]).1.status = 200 := by
  refine ⟨rfl, rfl, by decide, ?_, ?_⟩
  · exact (login_enumeration_resistant (fun p h => p == h) (fun i e => i ++ "|" ++ e) 5
      [sampleUser] "nobody@x.com" "pw" "a@x.com" "wrong" sampleUser rfl rfl (by decide)).1
  · exact ((login_enumeration_resistant (fun p h => p == h) (fun i e => i ++ "|" ++ e) 5
      [sampleUser] "nobody@x.com" "pw" "a@x.com" "wrong" sampleUser rfl rfl (by decide)).2
      "a@x.com" "hashed-secret" sampleUser rfl (by decide)).1

/-- JSON values, for the response payloads the handlers build. -/
inductive Val where
  | vStr (s : String)
  | vNum (q : ℚ)
  | vBool (b : Bool)
  | vNull
  | vDate (t : Nat)
  | vArr (xs : List Val)
  | vObj (fields : List (String × Val))

/-- JSON encoding of a nullable string column (SQL null serialises to
JSON null). -/
def optStrJson : Option String → Val
  | none => .vNull
  | some s => .vStr s

/-- JSON encoding of a nullable date column. -/
def optDateJson : Option Nat → Val
  | none => .vNull
  | some t => .vDate t

/-- Field list of an address object. -/
def addressFields (a : Address) : List (String × Val) :=
  [("street", .vStr a.street), ("city", .vStr a.city),
   ("state", .vStr a.state), ("zip", .vStr a.zip)]

/-- JSON encoding of a nullable address column. -/
def optAddressJson : Option Address → Val
  | none => .vNull
  | some a => .vObj (addressFields a)

/-- Field list of a stored W-2 extraction payload. -/
def w2DataFields (w : W2Data) : List (String × Val) :=
  [("employeeName", optStrJson w.employeeName),
   ("employeeSSN", optStrJson w.employeeSSN),
   ("employeeAddress", optAddressJson w.employeeAddress),
   ("employerName", .vStr w.employerName),
   ("employerEIN", .vStr w.employerEIN),
   ("employerAddress", .vObj (addressFields w.employerAddress)),
   ("box1_wages", .vNum w.box1_wages),
   ("box2_federalTax", .vNum w.box2_federalTax),
   ("box3_socialSecurityWages", .vNum w.box3_socialSecurityWages),
   ("box4_socialSecurityTax", .vNum w.box4_socialSecurityTax),
   ("box5_medicareWages", .vNum w.box5_medicareWages),
   ("box6_medicareTax", .vNum w.box6_medicareTax),
   ("box7_socialSecurityTips", .vNum w.box7_socialSecurityTips),
   ("box8_allocatedTips", .vNum w.box8_allocatedTips),
   ("box9_verificationCode", .vStr w.box9_verificationCode),
   ("box10_dependentCareBenefits", .vNum w.box10_dependentCareBenefits),
   ("box11_nonqualifiedPlans", .vNum w.box11_nonqualifiedPlans),
   ("box12_codes", .vArr (w.box12_codes.map .vStr)),
   ("box13_statutoryEmployee", .vBool w.box13_statutoryEmployee),
   ("box13_retirementPlan", .vBool w.box13_retirementPlan),
   ("box13_thirdPartySickPay", .vBool w.box13_thirdPartySickPay),
   ("box14_other", .vArr (w.box14_other.map .vStr)),
   ("taxableIncome", .vNum w.taxableIncome),
   ("totalTaxWithheld", .vNum w.totalTaxWithheld),
   ("netPay", .vNum w.netPay),
   ("extractionDate", .vDate w.extractionDate),
   ("extractionMethod", .vStr w.extractionMethod),
   ("confidence", .vNum w.confidence)]

/-- Field list of a stored 1098 payload. -/
def form1098Fields (f : Form1098) : List (String × Val) :=
  [("borrowerName", .vStr f.borrowerName),
   ("borrowerSSN", .vStr f.borrowerSSN),
   ("borrowerAddress", .vObj (addressFields f.borrowerAddress)),
   ("lenderName", .vStr f.lenderName),
   ("lenderTIN", .vStr f.lenderTIN),
   ("lenderAddress", .vObj (addressFields f.lenderAddress)),
   ("mortgageInterestReceived", .vNum f.mortgageInterestReceived),
   ("pointsPaid", .vNum f.pointsPaid),
   ("refundOfOverpaidInterest", .vNum f.refundOfOverpaidInterest),
   ("mortgageInsurancePremiums", .vNum f.mortgageInsurancePremiums),
   ("outstandingMortgagePrincipal", .vNum f.outstandingMortgagePrincipal),
   ("propertyAddress", .vObj (addressFields f.propertyAddress)),
   ("formYear", .vNum (f.formYear : ℚ)),
   ("generatedDate", .vDate f.generatedDate),
   ("accountNumber", .vStr f.accountNumber),
   ("calculationBasis", .vObj
     [("basedOnW2Income", .vNum f.calculationBasis.basedOnW2Income),
      ("interestRate", .vNum f.calculationBasis.interestRate),
      ("estimationMethod", .vStr f.calculationBasis.estimationMethod)])]

/-- Field list of the JSONB income blob. -/
def incomeFields (i : Income) : List (String × Val) :=
  [("w2Data", match i.w2Data with | none => .vNull | some w => .vObj (w2DataFields w)),
   ("lastW2Extraction", optDateJson i.lastW2Extraction)]

/-- Field list of the JSONB deductions blob. -/
def deductionsFields (d : Deductions) : List (String × Val) :=
  [("form1098", match d.form1098 with | none => .vNull | some f => .vObj (form1098Fields f)),
   ("last1098Generation", optDateJson d.last1098Generation)]

/-- The `user` object of the POST /signup 201 response. -/
def signupUserFields (u : UserRow) : List (String × Val) :=
  [("id", .vStr u.id), ("email", .vStr u.email),
   ("firstName", .vStr u.firstName), ("lastName", .vStr u.lastName)]

/-- The `user` object of the POST /login 200 response. -/
def loginUserFields (u : UserRow) : List (String × Val) :=
  [("id", .vStr u.id), ("email", .vStr u.email),
   ("firstName", .vStr u.firstName), ("lastName", .vStr u.lastName)]

/-- The `user` object of the GET /profile 200 response. -/
def profileUserFields (u : UserRow) : List (String × Val) :=
  [("id", .vStr u.id), ("email", .vStr u.email),
   ("firstName", .vStr u.firstName), ("lastName", .vStr u.lastName),
   ("filingStatus", optStrJson u.filingStatus),
   ("taxClassification", optStrJson u.taxClassification),
   ("businessName", optStrJson u.businessName),
   ("address", optAddressJson u.address),
   ("income", .vObj (incomeFields u.income)),
   ("deductions", .vObj (deductionsFields u.deductions)),
   ("w9Uploaded", .vBool u.w9Uploaded),
   ("formCompletionStatus", .vStr u.formCompletionStatus),
   ("createdAt", .vDate u.createdAt),
   ("lastLogin", optDateJson u.lastLogin)]

/-- Top-level object of the GET /dashboard/me 200 response. The source
also writes a `dependents` key from `user.dependents`, which is undefined
on a findByPk without include and is therefore dropped by JSON
serialisation; it is omitted here. -/
def dashboardMeFields (u : UserRow) : List (String × Val) :=
  [("success", .vBool true),
   ("id", .vStr u.id), ("email", .vStr u.email),
   ("firstName", .vStr u.firstName), ("lastName", .vStr u.lastName),
   ("filingStatus", optStrJson u.filingStatus),
   ("w9Uploaded", .vBool u.w9Uploaded),
   ("w9UploadDate", optDateJson u.w9UploadDate),
   ("w9FileName", optStrJson u.w9FileName),
   ("w2Uploaded", .vBool u.w2Uploaded),
   ("w2UploadDate", optDateJson u.w2UploadDate),
   ("w2FileName", optStrJson u.w2FileName),
   ("createdAt", .vDate u.createdAt),
   ("updatedAt", .vDate u.updatedAt)]

/-- Key list of a JSON object's field list. -/
def jsonKeys (l : List (String × Val)) : List String :=
  l.map Prod.fst

/-- C6. No operation that returns user data exposes the stored password:
the user objects of signup, login, profile and dashboard/me carry no
`password` key, for every user state, and neither does any nested object
(address, income, deductions, W-2 payload, 1098 payload) those responses
embed. -/
theorem password_never_in_responses :
    ∀ (u : UserRow) (a : Address) (i : Income) (d : Deductions) (w : W2Data) (f : Form1098),
      "password" ∉ jsonKeys (signupUserFields u) ∧
      "password" ∉ jsonKeys (loginUserFields u) ∧
      "password" ∉ jsonKeys (profileUserFields u) ∧
      "password" ∉ jsonKeys (dashboardMeFields u) ∧
      "password" ∉ jsonKeys (addressFields a) ∧
      "password" ∉ jsonKeys (incomeFields i) ∧
      "password" ∉ jsonKeys (deductionsFields d) ∧
      "password" ∉ jsonKeys (w2DataFields w) ∧
      "password" ∉ jsonKeys (form1098Fields f) := by
  intro u a i d w f
  refine ⟨?_, ?_, ?_, ?_, ?_, ?_, ?_, ?_, ?_⟩ <;>
    simp [jsonKeys, signupUserFields, loginUserFields, profileUserFields,
      dashboardMeFields, addressFields, incomeFields, deductionsFields,
      w2DataFields, form1098Fields]

/-- A row of the `dependents` table (models/Dependent.js). The model's
attributes are id, userId, name, relationship, ssn and birthDate; there
is no `dob` attribute. `relationship` is declared `allowNull: false`. -/
structure DependentRow where
  id : String
  userId : String
  name : String
  relationship : String
  ssn : Option String
  birthDate : Option String
  createdAt : Nat
deriving DecidableEq, Repr

/-- Sequelize errors surfaced by the model layer. -/
inductive SqlErr where
  | notNullViolation
deriving DecidableEq, Repr

/-- Sequelize `Dependent.create` for the payload POST /dependents builds:
`{userId, name, relationship, dob, ssn}`. The key `dob` is not an
attribute of the model, so Sequelize drops it and `birthDate` keeps its
default null; a missing `relationship` violates the column's
`allowNull: false` and the create throws. -/
def dependentCreate (newId : String) (now : Nat) (userId name : String)
    (relationship : Option String) (_dob : Option String) (ssn : Option String) :
    Except SqlErr DependentRow :=
  match relationship with
  | none => .error .notNullViolation
  | some r =>
    .ok { id := newId, userId := userId, name := name, relationship := r,
          ssn := ssn, birthDate := none, createdAt := now }

/-- Reading property `dob` on a Dependent instance: the model defines no
such attribute, so the access yields undefined for every row. -/
def DependentRow.dobProp (_ : DependentRow) : Option String := none

/-- Outcome of POST /dependents: HTTP status, the `dob` field of the
201 response body (undefined values are dropped by JSON serialisation,
hence the Option), and the created row when any. -/
structure AddDependentResult where
  status : Nat
  respDob : Option String
  row : Option DependentRow
deriving DecidableEq, Repr

/-- POST /dependents handler. Express-validator rejects a missing or
empty name (`notEmpty`) and a present but non-ISO-8601 dob
(`optional().isISO8601()`, the validator supplied as `isISO`); otherwise
the row is created and echoed, reading the response's `dob` from the
instance's (nonexistent) `dob` attribute. -/
def addDependent (isISO : String → Bool) (newId : String) (now : Nat) (uid : String)
    (name : Option String) (relationship dob ssn : Option String) : AddDependentResult :=
  if name.getD "" = "" then
    { status := 400, respDob := none, row := none }
  else if (dob.map isISO).getD true = false then
    { status := 400, respDob := none, row := none }
  else
    match dependentCreate newId now uid (name.getD "") relationship dob ssn with
    | .error _ => { status := 500, respDob := none, row := none }
    | .ok d => { status := 201, respDob := d.dobProp, row := some d }

/-- C3 (code bug), evaluated at the failing inputs: with a valid name but
no relationship the handler answers 500, not success, because the model
requires `relationship`; and with relationship and a valid dob supplied
the created row stores no birth date and the response carries no dob,
because the route writes the key `dob` while the model's attribute is
named `birthDate`. -/
theorem addDependent_loses_dob_and_requires_relationship :
    (addDependent (fun _ => true) "d1" 0 "u1" (some "Alice") none none none).status = 500 ∧
    ((addDependent (fun _ => true) "d1" 0 "u1" (some "Alice") (some "child") (some "2015-01-01") none).status = 201 ∧
     (addDependent (fun _ => true) "d1" 0 "u1" (some "Alice") (some "child") (some "2015-01-01") none).respDob = none ∧
     ((addDependent (fun _ => true) "d1" 0 "u1" (some "Alice") (some "child") (some "2015-01-01") none).row.map
        DependentRow.birthDate) = some none) := by
  refine ⟨rfl, rfl, rfl, rfl⟩

/-- Ownership-scoped lookup of DELETE /dependents/:id:
`Dependent.findOne({where: {id, userId}})` filters on both ids. -/
def findDependent (depId uid : String) (store : List DependentRow) : Option DependentRow :=
  store.find? (fun d => d.id == depId && d.userId == uid)

/-- GET /dependents: the requesting user's rows in insertion order. -/
def listDependents (uid : String) (store : List DependentRow) : List DependentRow :=
  store.filter (fun d => d.userId == uid)

/-- DELETE /dependents/:id handler: 404 when the ownership-scoped lookup
misses, otherwise the row is destroyed (deleted by primary key) and the
handler answers 200. -/
def removeDependent (uid depId : String) (store : List DependentRow) :
    Nat × List DependentRow :=
  match findDependent depId uid store with
  | none => (404, store)
  | some d => (200, store.filter (fun r => !(r.id == d.id)))

/-- C4. Removal is scoped to the owner: a remove request by a different
user B for a dependent D owned by A fails with 404 and leaves the store,
and in particular A's dependent list, unchanged; and whenever a removal
succeeds, the store held a row with the requested id owned by the
requesting user. -/
theorem removeDependent_ownership_scoped (A B : String) (D : DependentRow)
    (store : List DependentRow)
    (hmem : D ∈ store) (hown : D.userId = A) (hne : B ≠ A)
    (huniq : ∀ d ∈ store, d.id = D.id → d = D) :
    ((removeDependent B D.id store).1 = 404 ∧
     (removeDependent B D.id store).2 = store ∧
     D ∈ listDependents A (removeDependent B D.id store).2) ∧
    (∀ (uid depId : String) (s : List DependentRow),
      (removeDependent uid depId s).1 = 200 →
      ∃ d ∈ s, d.id = depId ∧ d.userId = uid) := by
  have hfind : findDependent D.id B store = none := by
    apply List.find?_eq_none.mpr
    intro d hd
    simp only [Bool.and_eq_true, beq_iff_eq, not_and]
    intro hid
    have hD : d = D := huniq d hd hid
    rw [hD, hown]
    exact fun h => hne h.symm
  constructor
  · unfold removeDependent
    rw [hfind]
    refine ⟨rfl, rfl, ?_⟩
    simp only [listDependents, List.mem_filter, beq_iff_eq]
    exact ⟨hmem, hown⟩
  · intro uid depId s hs
    unfold removeDependent at hs
    cases hf : findDependent depId uid s with
    | none => rw [hf] at hs; simp at hs
    | some d =>
      have hf' : s.find? (fun d => d.id == depId && d.userId == uid) = some d := hf
      have hd := List.find?_some hf'
      have hmem' := List.mem_of_find?_eq_some hf'
      simp only [Bool.and_eq_true, beq_iff_eq] at hd
      exact ⟨d, hmem', hd.1, hd.2⟩

/-- Witness for C4: a two-row store; user B's delete of A's dependent is
a 404 that leaves A's list intact. -/
theorem removeDependent_ownership_scoped_witness :
    (⟨"dep1", "A", "Kid", "child", none, none, 0⟩ : DependentRow) ∈
      [(⟨"dep1", "A", "Kid", "child", none, none, 0⟩ : DependentRow),
       ⟨"dep2", "B", "Kid2", "child", none, none, 1⟩] ∧
    (removeDependent "B" "dep1"
      [(⟨"dep1", "A", "Kid", "child", none, none, 0⟩ : DependentRow),
       ⟨"dep2", "B", "Kid2", "child", none, none, 1⟩]).1 = 404 ∧
    (⟨"dep1", "A", "Kid", "child", none, none, 0⟩ : DependentRow) ∈
      listDependents "A" (removeDependent "B" "dep1"
        [(⟨"dep1", "A", "Kid", "child", none, none, 0⟩ : DependentRow),
         ⟨"dep2", "B", "Kid2", "child", none, none, 1⟩]).2 := by
  have h := removeDependent_ownership_scoped "A" "B"
    ⟨"dep1", "A", "Kid", "child", none, none, 0⟩
    [⟨"dep1", "A", "Kid", "child", none, none, 0⟩, ⟨"dep2", "B", "Kid2", "child", none, none, 1⟩]
    (by decide) rfl (by decide) (by decide)
  exact ⟨by decide, h.1.1, h.1.2.2⟩

/-- Whether `pat` occurs in `s` as a contiguous segment. -/
def containsSeg (pat s : List Char) : Bool :=
  (List.range (s.length + 1)).any (fun i => pat.isPrefixOf (s.drop i))

/-- Alternatives of the upload filter's regex. -/
def allowedTypeTokens : List String :=
  ["jpeg", "jpg", "png", "pdf", "doc", "docx"]

/-- Evaluation of the JavaScript test of the unanchored regex
/jpeg|jpg|png|pdf|doc|docx/ against a string: true exactly when the
string CONTAINS one of the alternatives as a substring. -/
def allowedTypesTest (s : String) : Bool :=
  allowedTypeTokens.any (fun tok => containsSeg tok.data s.data)

/-- Node's path.extname on the basename's character list: the suffix from
the last dot, or empty when there is no dot or the only dot leads the
name. -/
def extnameChars (cs : List Char) : List Char :=
  let pre := cs.reverse.takeWhile (fun c => !(c == '.'))
  if pre.length = cs.length then []
  else if pre.length + 1 = cs.length then []
  else '.' :: pre.reverse

/-- Node's path.extname of an original filename (the uploads never carry
a directory part, so the name is its own basename). -/
def extname (name : String) : String :=
  String.mk (extnameChars name.data)

/-- ASCII lowercasing, as toLowerCase acts on these filenames. -/
def lowerStr (s : String) : String :=
  String.mk (s.data.map Char.toLower)

/-- An uploaded file as multer's fileFilter and limits see it: the
client-supplied original name, declared content type and byte size. -/
structure UploadedFile where
  originalname : String
  mimetype : String
  size : Nat
deriving DecidableEq, Repr

/-- The multer fileFilter of both upload routes: the regex must match the
lowercased extension AND the declared content type. -/
def fileFilterAccepts (f : UploadedFile) : Bool :=
  allowedTypesTest (lowerStr (extname f.originalname)) && allowedTypesTest f.mimetype

/-- Configured multer file-size limit: 5 MiB. -/
def fileSizeLimit : Nat := 5 * 1024 * 1024

/-- Outcome of an upload request. -/
inductive UploadOutcome where
  | noFile
  | unsupportedType
  | tooLarge
  | accepted
deriving DecidableEq, Repr

/-- POST /upload-w9 and /upload-w2 pipeline: the route answers 400 when
multer passed no file; multer's fileFilter rejects before streaming
(the unsupported-type error), and the size limit aborts files above
5 MiB. -/
def uploadOutcome (f : Option UploadedFile) : UploadOutcome :=
  match f with
  | none => .noFile
  | some f =>
    if !(fileFilterAccepts f) then .unsupportedType
    else if fileSizeLimit < f.size then .tooLarge
    else .accepted

/-- Counterexample for C7 as stated: the extension of
`statement.fakepdf` is outside the allow-list {jpeg, jpg, png, pdf, doc,
docx} under either reading (with or without the leading dot), yet the
upload is accepted, because the filter's unanchored regex matches the
substring `pdf` inside `.fakepdf`. -/
theorem upload_filter_not_exact_allowlist :
    lowerStr (extname "statement.fakepdf") ∉ allowedTypeTokens ∧
    lowerStr (extname "statement.fakepdf") ∉ allowedTypeTokens.map (fun t => "." ++ t) ∧
    uploadOutcome (some ⟨"statement.fakepdf", "application/pdf", 1024⟩) = .accepted := by
  refine ⟨by decide, by decide, by decide⟩

/-- C7 as amended. No file yields NoFile; UnsupportedType happens exactly
when the lowercased extension or the declared content-type fails the
substring test against {jpeg, jpg, png, pdf, doc, docx}; a file passing
the filter fails with TooLarge above 5 MiB and is accepted otherwise;
a .exe file is rejected and a .pdf under 5 MiB is accepted. -/
theorem upload_filter_behaviour (f : UploadedFile) :
    uploadOutcome none = .noFile ∧
    (uploadOutcome (some f) = .unsupportedType ↔
      ¬(allowedTypesTest (lowerStr (extname f.originalname)) = true ∧
        allowedTypesTest f.mimetype = true)) ∧
    (fileFilterAccepts f = true → fileSizeLimit < f.size →
      uploadOutcome (some f) = .tooLarge) ∧
    (fileFilterAccepts f = true → f.size ≤ fileSizeLimit →
      uploadOutcome (some f) = .accepted) ∧
    uploadOutcome (some ⟨"malware.exe", "application/octet-stream", 1024⟩) = .unsupportedType ∧
    uploadOutcome (some ⟨"form.pdf", "application/pdf", 1024⟩) = .accepted := by
  have hval : ∀ g : UploadedFile, uploadOutcome (some g) =
      if !(fileFilterAccepts g) then .unsupportedType
      else if fileSizeLimit < g.size then .tooLarge
      else .accepted := fun _ => rfl
  refine ⟨rfl, ?_, ?_, ?_, by decide, by decide⟩
  · rw [hval]
    unfold fileFilterAccepts
    cases h1 : allowedTypesTest (lowerStr (extname f.originalname)) <;>
      cases h2 : allowedTypesTest f.mimetype <;>
      simp [h1, h2]
    by_cases hs : fileSizeLimit < f.size <;> simp [hs]
  · intro hacc hs
    rw [hval, hacc]
    simp [hs]
  · intro hacc hs
    rw [hval, hacc]
    simp [Nat.not_lt.mpr hs]

/-- Witness for C7: a small PNG passes the filter, is under the limit and
is accepted. -/
theorem upload_filter_behaviour_witness :
    fileFilterAccepts ⟨"photo.png", "image/png", 2048⟩ = true ∧
    (2048 : Nat) ≤ fileSizeLimit ∧
    uploadOutcome (some ⟨"photo.png", "image/png", 2048⟩) = .accepted := by
  refine ⟨by decide, by decide, ?_⟩
  exact (upload_filter_behaviour ⟨"photo.png", "image/png", 2048⟩).2.2.2.1 (by decide) (by decide)

/-- A semi-structured record and a partial-update body, as maps from
field name to optional JSON value. -/
def RecMap : Type := String → Option Val

/-- The merge both PUT /w2-data and PUT /1098-data perform:
the object spread of the body over the current record followed by a fresh
`lastModified` stamp. -/
def updateRecord (current body : RecMap) (now : Nat) : RecMap :=
  fun k =>
    if k = "lastModified" then some (.vDate now)
    else
      match body k with
      | some v => some v
      | none => current k

/-- The shared shape of the two partial-update routes: 404 when no record
is stored yet, otherwise the merged record. -/
def putDerivedRecord (stored : Option RecMap) (body : RecMap) (now : Nat) :
    Except Nat RecMap :=
  match stored with
  | none => .error 404
  | some current => .ok (updateRecord current body now)

/-- C8. The partial-update merge is idempotent up to the lastModified
stamp: applying the same body twice agrees with applying it once on every
field other than lastModified. -/
theorem updateRecord_idempotent (current body : RecMap) (t1 t2 : Nat) (k : String)
    (hk : k ≠ "lastModified") :
    updateRecord (updateRecord current body t1) body t2 k =
      updateRecord current body t1 k := by
  unfold updateRecord
  simp only [hk, if_false, if_neg]
  cases body k with
  | none => rfl
  | some v => rfl

/-- Witness for C8: a concrete record and body evaluated at the field
`box1_wages`. -/
theorem updateRecord_idempotent_witness :
    ("box1_wages" : String) ≠ "lastModified" ∧
    updateRecord
        (updateRecord (fun k => if k = "box1_wages" then some (.vNum 65000) else none)
          (fun k => if k = "box1_wages" then some (.vNum 70000) else none) 1)
        (fun k => if k = "box1_wages" then some (.vNum 70000) else none) 2 "box1_wages" =
      updateRecord (fun k => if k = "box1_wages" then some (.vNum 65000) else none)
        (fun k => if k = "box1_wages" then some (.vNum 70000) else none) 1 "box1_wages" := by
  refine ⟨by decide, ?_⟩
  exact updateRecord_idempotent _ _ 1 2 "box1_wages" (by decide)

/-- Identifiers bound at module scope in the dashboard router file: its
require bindings and top-level consts. No `Form1098` binding exists there
or anywhere else in the repository. -/
def dashboardModuleScope : List String :=
  ["express", "multer", "path", "fs", "body", "validationResult",
   "User", "Dependent", "auth", "PDFDocument", "router",
   "uploadsDir", "w2UploadsDir", "storage", "upload", "w2Storage", "uploadW2"]

/-- GET /1098-data handler. Its first statement evaluates
`Form1098.findOne(...)`: resolving the free identifier `Form1098` against
the module scope fails, the ReferenceError lands in the handler's catch
block, and the response is the 500 Server-error reply. The stored
1098 record is never consulted (were the identifier bound, the handler
would also look it up under `req.user.id`, a field the auth middleware
never sets). -/
def get1098Data (u : UserRow) : Nat × Option Form1098 :=
  if "Form1098" ∈ dashboardModuleScope then
    match u.deductions.form1098 with
    | none => (404, none)
    | some f => (200, some f)
  else
    (500, none)

/-- C2 (code bug): every authenticated GET /1098-data request answers
500, never the claimed 200 or 404 — in particular for a user whose
deductions do hold a 1098 record. -/
theorem get1098Data_always_500 :
    (∀ u : UserRow, get1098Data u = (500, none)) ∧
    (∀ w2 : W2Data, ∀ year now : Nat,
      get1098Data { sampleUser with deductions :=
        { form1098 := some (generate1098 sampleUser w2 year now),
          last1098Generation := some now } } = (500, none)) := by
  constructor
  · intro u
    rfl
  · intro w2 year now
    rfl
